import Mathlib

/-!
Shallow embedding of the FreeCAD CAM Heidenhain post-processor scripts
`src/Mod/CAM/Path/Post/scripts/heidenhain_post.py` and
`src/Mod/CAM/Path/Post/scripts/refactored_heidenhain_post.py`.

Modelling conventions:
* Python floats are modelled as rationals (`ℚ`); the builtin fixed-point
  rendering `format(x, '.Nf')` / `format(x, '+.Nf')` is modelled by
  `pyFormatFixed`, round-half-even at `N` decimal digits of the rational.
* The gcode buffer (a Python list mutated in place by `append`) is passed
  and returned functionally; every `gcode.append(x)` becomes `gcode ++ [x]`.
* The `values` dictionary is modelled by the structure `Values` holding
  exactly the keys the modelled code reads or writes.  Multi-line string
  configuration values that the code only ever feeds to `splitlines(False)`
  (`PREAMBLE`, `POSTAMBLE`, ...) are modelled directly as line lists.
* FreeCAD `Units.Quantity` conversions (`getValueAs`) are modelled by the
  conversion factors `UNIT_LENGTH_FACTOR` (internal mm to `UNIT_FORMAT`)
  and `UNIT_SPEED_FACTOR` (internal mm/s to `UNIT_SPEED_FORMAT`).
* Python exceptions (`NameError` from the undefined name `point_line` in
  `output_line`, `KeyError` from missing dictionary keys in
  `output_stock_definition`) are modelled with `Except PyErr`.
* `heidenhain_post.py` is embedded at top level; the sibling
  `refactored_heidenhain_post.py` is embedded in namespace `RHP`.
-/

/-- A Python exception escaping the modelled code. -/
inductive PyErr where
  | nameError
  | keyError
  deriving DecidableEq, Repr

/-- The gcode buffer: a list of output lines. -/
abbrev Gcode := List String

/-- The `values` dictionary: the keys read or written by the modelled code
from `heidenhain_post.py`.  `COMMENT_PRE`/`COMMENT_POST` model the
`COMMENT_PREFIX`/`COMMENT_POSTFIX` keys and `LINE_PRE`/`LINE_POST` the
`LINE_PREFIX`/`LINE_POSTFIX` keys (renamed only in the Lean embedding). -/
structure Values where
  MACHINE_NAME : String
  POSTPROCESSOR_FILE_NAME : String
  OUTPUT_COMMENTS : Bool
  OUTPUT_HEADER : Bool
  OUTPUT_BCNC : Bool
  OUTPUT_LINE_NUMBERS : Bool
  LINE_NUMBER_ON_COMMENTS : Bool
  LIST_TOOLS_IN_PREAMBLE : Bool
  SHOW_OPERATION_LABELS : Bool
  SHOW_MACHINE_UNITS : Bool
  OUTPUT_MACHINE_NAME : Bool
  OUTPUT_PATH_LABELS : Bool
  OUTPUT_BLANK_LINES : Bool
  OUTPUT_TOOL_CHANGE : Bool
  STOP_SPINDLE_FOR_TOOL_CHANGE : Bool
  ENABLE_COOLANT : Bool
  SUPPORT_FLOOD_COOLANT : Bool
  SUPPORT_MIST_COOLANT : Bool
  USE_FMAX : Bool
  PGM_UPPERCASE : Bool
  SUPPORT_CYLINDER_STOCK : Bool
  NORMALIZE_PARAMETERS : Bool
  DECIMAL_COMMAS : Bool
  TOOL_BEFORE_CHANGE : Bool
  COMMENT_PRE : String
  COMMENT_POST : String
  LINE_PRE : String
  LINE_POST : String
  FINISH_LABEL : String
  UNITS : String
  UNIT_FORMAT : String
  UNIT_SPEED_FORMAT : String
  MOTION_MODE : String
  PREAMBLE : List String
  POSTAMBLE : List String
  SAFETYBLOCK : List String
  TOOLRETURN : List String
  TOOL_CHANGE : List String
  PRE_OPERATION : List String
  POST_OPERATION : List String
  AXIS_PRECISION : Nat
  FEED_PRECISION : Nat
  SPINDLE_DECIMALS : Nat
  FMAX_SPEED : ℚ
  UNIT_LENGTH_FACTOR : ℚ
  UNIT_SPEED_FACTOR : ℚ
  line_number : Int
  LINE_INCREMENT : Int
  spindle_state : String
  spindle_dir : String
  coolant_mode : String
  cam_file : String
  output_time : String
  deriving Repr, DecidableEq

/-- Round-half-even ("banker's rounding") to the nearest integer, the
rounding Python's fixed-point `format` applies to the decimal expansion. -/
def rhe (q : ℚ) : ℤ :=
  if q - (⌊q⌋ : ℚ) < 1 / 2 then ⌊q⌋
  else if 1 / 2 < q - (⌊q⌋ : ℚ) then ⌊q⌋ + 1
  else if ⌊q⌋ % 2 = 0 then ⌊q⌋ else ⌊q⌋ + 1

/-- The decimal digit character for `d % 10`. -/
def digitChar (d : Nat) : Char :=
  match d % 10 with
  | 0 => '0'
  | 1 => '1'
  | 2 => '2'
  | 3 => '3'
  | 4 => '4'
  | 5 => '5'
  | 6 => '6'
  | 7 => '7'
  | 8 => '8'
  | _ => '9'

/-- The last `prec` decimal digits of `n`, most significant first,
padded on the left with zeros to exactly `prec` characters. -/
def natDecimals : Nat → Nat → List Char
  | 0, _ => []
  | p + 1, n => natDecimals p (n / 10) ++ [digitChar n]

/-- Model of Python's `format(x, '+.Nf')` (`signed = true`) and
`format(x, '.Nf')` (`signed = false`) on the rational model of a float:
a sign (`+` only in signed mode), the integer part, and — for `prec > 0` —
a decimal point followed by exactly `prec` digits, rounded half-even. -/
def pyFormatFixed (signed : Bool) (prec : Nat) (q : ℚ) : String :=
  (if q < 0 then "-" else if signed then "+" else "") ++
    toString ((rhe (|q| * (10 : ℚ) ^ prec)).toNat / 10 ^ prec) ++
    (if prec = 0 then "" else "." ++ ⟨natDecimals prec ((rhe (|q| * (10 : ℚ) ^ prec)).toNat)⟩)

/-- Python `s.rstrip(c)` for a single strip character: remove every
trailing occurrence of `c`. -/
def rstripChar (s : String) (c : Char) : String :=
  ⟨(s.data.reverse.dropWhile (fun a => a = c)).reverse⟩

/-- Python `s.replace(".", ",")`: with a single-character pattern and
replacement this is a character map. -/
def commaSubst (s : String) : String :=
  ⟨s.data.map (fun c => if c = '.' then ',' else c)⟩

/-- Python `c in s` for a single character `c`. -/
def containsChar (s : String) (c : Char) : Bool :=
  s.data.contains c

/-- `format_parameter` from `heidenhain_post.py`: optionally strip trailing
zeros and then a trailing decimal point, then optionally swap points for
commas. -/
def format_parameter (v : Values) (value : String) : String :=
  let value :=
    if v.NORMALIZE_PARAMETERS && containsChar value '.' then
      rstripChar (rstripChar value '0') '.'
    else value
  if v.DECIMAL_COMMAS then commaSubst value else value

/-- `format_for_axis`: the quantity's value in `UNIT_FORMAT` units,
rendered with a forced sign and `AXIS_PRECISION` decimals, then passed
through `format_parameter`. -/
def format_for_axis (v : Values) (q : ℚ) : String :=
  format_parameter v (pyFormatFixed true v.AXIS_PRECISION (q * v.UNIT_LENGTH_FACTOR))

/-- `format_for_feed`: the quantity's value in `UNIT_SPEED_FORMAT` units,
rendered with `FEED_PRECISION` decimals, then passed through
`format_parameter`. -/
def format_for_feed (v : Values) (q : ℚ) : String :=
  format_parameter v (pyFormatFixed false v.FEED_PRECISION (q * v.UNIT_SPEED_FACTOR))

/-- `format_for_spindle`: `float(number)` (no unit conversion), rendered
with `SPINDLE_DECIMALS` decimals, then passed through `format_parameter`. -/
def format_for_spindle (v : Values) (q : ℚ) : String :=
  format_parameter v (pyFormatFixed false v.SPINDLE_DECIMALS q)

/-- `create_comment`: wrap a string in the comment pre- and postfixes. -/
def create_comment (v : Values) (comment_string : String) : String :=
  v.COMMENT_PRE ++ comment_string ++ v.COMMENT_POST

/-- One `Path.Command`.  `Parameters` is a Python `dict`; it is modelled by
one optional field per key the code touches.  The values are floats except
for the keys `R`, `D` and `M`, to which `output_line`/`output_arc` assign
strings. -/
structure Cmd where
  Name : String
  x : Option ℚ := none
  y : Option ℚ := none
  z : Option ℚ := none
  a : Option ℚ := none
  b : Option ℚ := none
  c : Option ℚ := none
  i : Option ℚ := none
  j : Option ℚ := none
  k : Option ℚ := none
  f : Option ℚ := none
  s : Option ℚ := none
  r : Option String := none
  d : Option String := none
  m : Option String := none
  deriving Repr, DecidableEq

/-- The `current_parameters` dictionary of `parse_a_path`: the last value
seen for each parameter, with the string-valued slots `R` and `D`. -/
structure CurParams where
  X : ℚ
  Y : ℚ
  Z : ℚ
  A : ℚ
  B : ℚ
  C : ℚ
  I : ℚ
  J : ℚ
  K : ℚ
  F : ℚ
  S : ℚ
  R : String
  D : String
  deriving Repr, DecidableEq

/-- The initial `current_parameters` of `parse_a_path`: values unlikely to
match any real first parameter. -/
def initialCurParams : CurParams :=
  { X := 123456789, Y := 123456789, Z := 123456789, A := 123456789
    B := 123456789, C := 123456789, I := 123456789, J := 123456789
    K := 123456789, F := 123456789, S := 123456789, R := "", D := "" }

/-- One axis parameter (`X`/`Y`/`Z`/`A`/`B`/`C`) iteration of the
`output_line` parameter loop: in incremental mode (`G91`) reset the
tracked value to 0 and emit nothing; in absolute mode emit the word and
update the tracked value only when the command's value differs. -/
def axisStep (v : Values) (pv : Option ℚ) (pname : String) (curv : ℚ) : String × ℚ :=
  match pv with
  | none => ("", curv)
  | some q =>
    if v.MOTION_MODE = "G91" then ("", 0)
    else if q ≠ curv then (" " ++ pname ++ format_for_axis v q, q)
    else ("", curv)

/-- The `R` iteration of the parameter loops: the code has just forced
`command.Parameters["R"] = "0"`, so the word is emitted exactly when the
tracked `R` differs from `"0"`. -/
def rStep (rv : String) (curR : String) : String × String :=
  if rv ≠ curR then (" R" ++ rv, rv) else ("", curR)

/-- The `F` iteration of the parameter loops: emit a feed word when the
command's feed differs from the tracked feed, `" F MAX"` when `USE_FMAX`
is set and the feed equals the rapid speed. -/
def fStep (v : Values) (fv : Option ℚ) (curF : ℚ) (fmax : ℚ) : String × ℚ :=
  match fv with
  | none => ("", curF)
  | some q =>
    if q ≠ curF then
      (if v.USE_FMAX && q = fmax then " F MAX"
       else " F" ++ format_for_feed v q, q)
    else ("", curF)

/-- `output_line` from `heidenhain_post.py`: build an `L` line for a
`G0`/`G1` command.  The code first forces `command.Parameters["R"] = "0"`
and, for `G0`, `command.Parameters["F"] = FMAX_SPEED / 60`; it then walks
`PARAMETER_ORDER` (`X Y Z A B C I J K R D F S M`; `I`/`J`/`K`/`D` have no
case in the match and `S` only prints).  A command carrying an `M`
parameter reaches `point_line += str(command.Parameters["M"])`, and the
name `point_line` is undefined in `output_line`, raising `NameError`
(after the in-place dictionary updates, before anything is appended).
If no parameter changed the bare `"L"` line is dropped. -/
def output_line (v : Values) (gcode : Gcode) (cmd : Cmd) (cur : CurParams) :
    Except PyErr (Gcode × CurParams) :=
  let fmax := v.FMAX_SPEED / 60
  let effF : Option ℚ := if cmd.Name = "G0" then some fmax else cmd.f
  let sX := axisStep v cmd.x "X" cur.X
  let sY := axisStep v cmd.y "Y" cur.Y
  let sZ := axisStep v cmd.z "Z" cur.Z
  let sA := axisStep v cmd.a "A" cur.A
  let sB := axisStep v cmd.b "B" cur.B
  let sC := axisStep v cmd.c "C" cur.C
  let sR := rStep "0" cur.R
  let sF := fStep v effF cur.F fmax
  let line := "L" ++ sX.1 ++ sY.1 ++ sZ.1 ++ sA.1 ++ sB.1 ++ sC.1 ++ sR.1 ++ sF.1
  let cur' := { cur with
    X := sX.2, Y := sY.2, Z := sZ.2, A := sA.2, B := sB.2, C := sC.2
    R := sR.2, F := sF.2 }
  if cmd.m.isSome then Except.error PyErr.nameError
  else if line = "L" then Except.ok (gcode, cur')
  else Except.ok (gcode ++ [line], cur')

/-- One point-line axis (`X`/`Y`) iteration of the `output_arc` parameter
loop: in incremental mode reset the tracked value to 0 and emit nothing;
in absolute mode emit the (already updated) tracked value whenever the
parameter is present, with no modal suppression. -/
def arcPointAxis (v : Values) (pv : Option ℚ) (pname : String) (curv : ℚ) : String × ℚ :=
  match pv with
  | none => ("", curv)
  | some _ =>
    if v.MOTION_MODE = "G91" then ("", 0)
    else (" " ++ pname ++ format_for_axis v curv, curv)

/-- One center-line word (`I` maps to `X`, `J` to `Y`) of the `output_arc`
parameter loop: emitted whenever the offset parameter is present, using
the tracked (absolute) center coordinate. -/
def arcCenterWord (v : Values) (pv : Option ℚ) (axname : String) (curv : ℚ) : String :=
  match pv with
  | none => ""
  | some _ => " " ++ axname ++ format_for_axis v curv

/-- The absolute-mode "Get command values" block of `output_arc`: each
pair `[X, I]`, `[Y, J]`, `[Z, K]` is processed offset-first, so each
center offset is added to the pre-command axis position before the
endpoint coordinate is stored. -/
def arcAbsUpdate (cur : CurParams) (cmd : Cmd) : CurParams :=
  let cur := match cmd.i with | some q => { cur with I := cur.X + q } | none => cur
  let cur := match cmd.x with | some q => { cur with X := q } | none => cur
  let cur := match cmd.j with | some q => { cur with J := cur.Y + q } | none => cur
  let cur := match cmd.y with | some q => { cur with Y := q } | none => cur
  let cur := match cmd.k with | some q => { cur with K := cur.Z + q } | none => cur
  let cur := match cmd.z with | some q => { cur with Z := q } | none => cur
  cur

/-- `output_arc` from `heidenhain_post.py`: build the `CC`/`C` lines for a
`G2`/`G3` command.  In absolute mode the tracked values are first brought
up to date by `arcAbsUpdate`; the direction word `" DR-"`/`" DR+"` is
stored in `command.Parameters["D"]` and `command.Parameters["R"]` is
forced to `"0"`.  The parameter loop (`X Y Z A B C I J K R D F S M`)
skips `Z` and `K` by `continue`, has no case for `A`/`B`/`C`/`S`, sends
`I`/`J` words to the center line and everything else to the point line.
The center line is appended only when it grew beyond `"CC"`; the point
line is always appended. -/
def output_arc (v : Values) (gcode : Gcode) (cmd : Cmd) (cur : CurParams) :
    Gcode × CurParams :=
  let fmax := v.FMAX_SPEED / 60
  let cur := if v.MOTION_MODE = "G91" then cur else arcAbsUpdate cur cmd
  let dParam : Option String :=
    if cmd.Name = "G2" then some " DR-"
    else if cmd.Name = "G3" then some " DR+"
    else cmd.d
  let sX := arcPointAxis v cmd.x "X" cur.X
  let sY := arcPointAxis v cmd.y "Y" cur.Y
  let wI := arcCenterWord v cmd.i "X" cur.I
  let wJ := arcCenterWord v cmd.j "Y" cur.J
  let sR := rStep "0" cur.R
  let wD := dParam.getD ""
  let sF := fStep v cmd.f cur.F fmax
  let wM := cmd.m.getD ""
  let point_line := "C" ++ sX.1 ++ sY.1 ++ sR.1 ++ wD ++ sF.1 ++ wM
  let center_line := "CC" ++ wI ++ wJ
  let cur' := { cur with X := sX.2, Y := sY.2, R := sR.2, F := sF.2 }
  let gcode := if center_line ≠ "CC" then gcode ++ [center_line] else gcode
  (gcode ++ [point_line], cur')

/-- `output_optional_stop`: an optional-stop comment and `M1`. -/
def output_optional_stop (v : Values) (gcode : Gcode) : Gcode :=
  let gcode := if v.OUTPUT_COMMENTS then gcode ++ [create_comment v "Optional stop"] else gcode
  gcode ++ ["M1"]

/-- `output_forced_stop`: a forced-stop comment and `M2` (also used for
`M30` commands). -/
def output_forced_stop (v : Values) (gcode : Gcode) : Gcode :=
  let gcode := if v.OUTPUT_COMMENTS then gcode ++ [create_comment v "Forced stop"] else gcode
  gcode ++ ["M2"]

/-- The tool-controller attributes `output_tool_change` reads from its
`tc` argument. -/
structure ToolController where
  ToolNumber : Int
  SpindleDir : String
  SpindleSpeed : ℚ
  deriving Repr, DecidableEq

/-- `output_tool_change` from `heidenhain_post.py`: comments around an
optional `M5` (spindle stop), the `TOOL CALL` line, `M6`, an `M3`/`M4`
restart matching the controller's spindle direction, and the configured
`TOOL_CHANGE` lines. -/
def output_tool_change (v : Values) (gcode : Gcode) (tc : ToolController) :
    Values × Gcode :=
  let gcode := if v.OUTPUT_COMMENTS then gcode ++ [create_comment v "Begin toolchange"] else gcode
  let (v, gcode) :=
    if v.OUTPUT_TOOL_CHANGE then
      let (v, gcode) :=
        if v.STOP_SPINDLE_FOR_TOOL_CHANGE && v.spindle_state ≠ "None" then
          ({ v with spindle_state := "None" }, gcode ++ ["M5"])
        else (v, gcode)
      let v := { v with spindle_dir := tc.SpindleDir }
      let gcode := gcode ++
        ["TOOL CALL " ++ toString tc.ToolNumber ++ " Z S" ++
          format_for_spindle v tc.SpindleSpeed]
      let gcode := gcode ++ ["M6"]
      let gcode :=
        if v.spindle_dir = "Forward" then gcode ++ ["M3"]
        else if v.spindle_dir = "Reverse" then gcode ++ ["M4"]
        else gcode
      let gcode := gcode ++ v.TOOL_CHANGE
      (v, gcode)
    else (v, gcode)
  let gcode := if v.OUTPUT_COMMENTS then gcode ++ [create_comment v "End toolchange"] else gcode
  (v, gcode)

/-- The coolant `match` of `output_coolant_update` in `heidenhain_post.py`
(Python `match` arms tried in order): the coolant mode actually used and
the command to emit, or `none` when no arm assigns a command. -/
def coolantDecision (mode : String) (flood mist : Bool) : Option (String × String) :=
  if mode = "None" then some ("None", "M9")
  else if (mode = "Flood" && flood) || (mode = "Mist" && flood && !mist) then
    some ("Flood", "M8")
  else if (mode = "Mist" && mist) || (mode = "Flood" && !flood && mist) then
    some ("Mist", "M7")
  else none

/-- The comment text chosen by `output_coolant_update` in
`heidenhain_post.py`. -/
def coolantComment (newMode usedMode : String) : String :=
  if newMode = "None" then "Coolant Off"
  else if newMode = usedMode then "Coolant On: " ++ newMode
  else "Coolant On: " ++ newMode ++ " not available, using " ++ usedMode

/-- `output_coolant_update` from `heidenhain_post.py`.  `newMode` is
`PathUtil.coolantModeForOp(obj)` for the operation being processed.  When
coolant is enabled and the mode differs from the tracked
`values["coolant_mode"]`, the matching arm picks the used mode and the
command; a comment is emitted first when requested, the tracked mode is
updated to the used mode, and the command is appended.  When no arm
assigns a command (`if not command: return`) nothing changes. -/
def output_coolant_update (v : Values) (gcode : Gcode) (newMode : String) :
    Values × Gcode :=
  if v.ENABLE_COOLANT && v.coolant_mode ≠ newMode then
    match coolantDecision newMode v.SUPPORT_FLOOD_COOLANT v.SUPPORT_MIST_COOLANT with
    | none => (v, gcode)
    | some (used, command) =>
      let gcode :=
        if v.OUTPUT_COMMENTS then gcode ++ [create_comment v (coolantComment newMode used)]
        else gcode
      ({ v with coolant_mode := used }, gcode ++ [command])
  else (v, gcode)

/-- The stock attributes `output_stock_definition` reads.  The
`hasPlacementBase` flag models `hasattr(stock, "Placement") and
hasattr(stock.Placement, "Base")`; the bounding box fields model
`Path.Main.Stock.shapeBoundBox(stock)` for `FromBase` stock. -/
structure Stock where
  StockType : String
  hasPlacementBase : Bool
  baseX : ℚ
  baseY : ℚ
  baseZ : ℚ
  SLength : ℚ
  SWidth : ℚ
  SHeight : ℚ
  SRadius : ℚ
  XMin : ℚ
  YMin : ℚ
  ZMin : ℚ
  XMax : ℚ
  YMax : ℚ
  ZMax : ℚ
  deriving Repr, DecidableEq

/-- The job attributes the exporter reads (`hasattr(current_job, "Label")`
and `hasattr(current_job, "Stock")` modelled with `Option`). -/
structure Job where
  JLabel : Option String
  JStock : Option Stock
  deriving Repr, DecidableEq

/-- `pgm_job_name`: the job's label (default `"New"`), uppercased when
`PGM_UPPERCASE`. -/
def pgm_job_name (v : Values) (job : Job) : String :=
  let program_name := match job.JLabel with
    | some l => l
    | none => "New"
  if v.PGM_UPPERCASE then program_name.toUpper else program_name

/-- `pgm_unit`: the unit keyword for the PGM begin/end lines. -/
def pgm_unit (v : Values) : String :=
  if v.UNITS = "G21" then "MM"
  else if v.UNITS = "G20" then "INCH"
  else ""

/-- `output_pgm_begin`: append the program begin line. -/
def output_pgm_begin (v : Values) (gcode : Gcode) (job : Job) : Gcode :=
  gcode ++ ["BEGIN PGM " ++ pgm_job_name v job ++ " " ++ pgm_unit v]

/-- `output_pgm_end`: append the program end line. -/
def output_pgm_end (v : Values) (gcode : Gcode) (job : Job) : Gcode :=
  gcode ++ ["END PGM " ++ pgm_job_name v job ++ " " ++ pgm_unit v]

/-- The two `BLK FORM` lines for box stock. -/
def blkFormBox (v : Values) (ox oy oz sx sy sz : ℚ) : List String :=
  ["BLK FORM 0.1 Z X" ++ format_for_axis v ox ++ " Y" ++ format_for_axis v oy ++
     " Z" ++ format_for_axis v oz,
   "BLK FORM 0.2 X" ++ format_for_axis v (sx + ox) ++ " Y" ++ format_for_axis v (sy + oy) ++
     " Z" ++ format_for_axis v (sz + oz)]

/-- `output_stock_definition` from `heidenhain_post.py`.  When the stock
has no `Placement.Base` the `offset` dictionary stays empty, so the
`CreateBox` and unsupported-`CreateCylinder` branches raise `KeyError`
reading `offset["X"]` (and the cylinder output raises reading
`offset["Z"]`).  An unrecognized stock type leaves `stock_type` empty and
appends nothing. -/
def output_stock_definition (v : Values) (gcode : Gcode) (job : Job) :
    Except PyErr Gcode :=
  match job.JStock with
  | none => Except.ok gcode
  | some stock =>
    if stock.StockType = "CreateBox" then
      if stock.hasPlacementBase then
        Except.ok (gcode ++
          blkFormBox v stock.baseX stock.baseY stock.baseZ
            stock.SLength stock.SWidth stock.SHeight)
      else Except.error PyErr.keyError
    else if stock.StockType = "CreateCylinder" then
      if v.SUPPORT_CYLINDER_STOCK then
        if stock.hasPlacementBase then
          Except.ok (gcode ++
            ["BLK FORM CYLINDER Z R" ++ format_for_axis v stock.SRadius ++
               " L" ++ format_for_axis v stock.SHeight ++
               " DIST" ++ format_for_axis v stock.baseZ])
        else Except.error PyErr.keyError
      else
        if stock.hasPlacementBase then
          Except.ok (gcode ++
            blkFormBox v (stock.baseX - stock.SRadius) (stock.baseY - stock.SRadius)
              stock.baseZ (stock.SRadius * 2) (stock.SRadius * 2) stock.SHeight)
        else Except.error PyErr.keyError
    else if stock.StockType = "FromBase" then
      Except.ok (gcode ++
        blkFormBox v stock.XMin stock.YMin stock.ZMin
          (-stock.XMin + stock.XMax) (-stock.YMin + stock.YMax) (-stock.ZMin + stock.ZMax))
    else Except.ok gcode

/-- `output_header`: the four header comments.  `cam_file` and
`output_time` stand for the host state (`FreeCAD.ActiveDocument` and
`datetime.datetime.now()`) read by the function. -/
def output_header (v : Values) (gcode : Gcode) : Gcode :=
  if v.OUTPUT_HEADER then
    gcode ++
      [create_comment v "Exported by FreeCAD",
       create_comment v ("Post Processor: " ++ v.POSTPROCESSOR_FILE_NAME),
       create_comment v ("Cam File: " ++ v.cam_file),
       create_comment v ("Output Time: " ++ v.output_time)]
  else gcode

/-- `output_postamble_header`: the begin-postamble comment. -/
def output_postamble_header (v : Values) (gcode : Gcode) : Gcode :=
  if v.OUTPUT_COMMENTS then gcode ++ [create_comment v "Begin postamble"] else gcode

/-- `output_postamble`: the configured postamble lines. -/
def output_postamble (v : Values) (gcode : Gcode) : Gcode :=
  gcode ++ v.POSTAMBLE

/-- `output_preamble`: the begin-preamble comment and the configured
preamble lines. -/
def output_preamble (v : Values) (gcode : Gcode) : Gcode :=
  let gcode := if v.OUTPUT_COMMENTS then gcode ++ [create_comment v "Begin preamble"] else gcode
  gcode ++ v.PREAMBLE

/-- `output_safetyblock`: the configured safety block lines. -/
def output_safetyblock (v : Values) (gcode : Gcode) : Gcode :=
  gcode ++ v.SAFETYBLOCK

/-- `output_tool_return`: the configured tool return lines. -/
def output_tool_return (v : Values) (gcode : Gcode) : Gcode :=
  gcode ++ v.TOOLRETURN

/-- A tool-path object from the host's object tree.  `hasPathAttr` models
`hasattr(obj, "Path")`, `hasGroupAttr` models `hasattr(obj, "Group")` (a
compound or project holding `children`), `active` models
`PathUtil.activeForOp`, `coolantMode` models
`PathUtil.coolantModeForOp`, `isToolController` models the
`isinstance(item.Proxy, PathToolController.ToolController)` test, and
`job` models `findParentJob`. -/
inductive PathObj where
  | mk
    (Name : String)
    (Label : String)
    (hasPathAttr : Bool)
    (hasGroupAttr : Bool)
    (children : List PathObj)
    (commands : List Cmd)
    (active : Bool)
    (coolantMode : String)
    (isToolController : Bool)
    (tc : ToolController)
    (job : Job)
  deriving Repr

def PathObj.Name : PathObj → String
  | .mk n _ _ _ _ _ _ _ _ _ _ => n

def PathObj.Label : PathObj → String
  | .mk _ l _ _ _ _ _ _ _ _ _ => l

def PathObj.hasPathAttr : PathObj → Bool
  | .mk _ _ p _ _ _ _ _ _ _ _ => p

def PathObj.hasGroupAttr : PathObj → Bool
  | .mk _ _ _ g _ _ _ _ _ _ _ => g

def PathObj.children : PathObj → List PathObj
  | .mk _ _ _ _ c _ _ _ _ _ _ => c

def PathObj.commands : PathObj → List Cmd
  | .mk _ _ _ _ _ c _ _ _ _ _ => c

def PathObj.active : PathObj → Bool
  | .mk _ _ _ _ _ _ a _ _ _ _ => a

def PathObj.coolantMode : PathObj → String
  | .mk _ _ _ _ _ _ _ c _ _ _ => c

def PathObj.isToolController : PathObj → Bool
  | .mk _ _ _ _ _ _ _ _ t _ _ => t

def PathObj.tc : PathObj → ToolController
  | .mk _ _ _ _ _ _ _ _ _ t _ => t

def PathObj.job : PathObj → Job
  | .mk _ _ _ _ _ _ _ _ _ _ j => j

/-- `output_start_bcnc`: the BCNC block header comments. -/
def output_start_bcnc (v : Values) (gcode : Gcode) (obj : PathObj) : Gcode :=
  if v.OUTPUT_BCNC then
    gcode ++
      [create_comment v ("Block-name: " ++ obj.Label),
       create_comment v "Block-expand: 0",
       create_comment v "Block-enable: 1"]
  else gcode

/-- `output_preop`: the begin-operation comments and the configured
pre-operation lines. -/
def output_preop (v : Values) (gcode : Gcode) (obj : PathObj) : Gcode :=
  let gcode :=
    if v.OUTPUT_COMMENTS then
      let gcode := gcode ++
        [if v.SHOW_OPERATION_LABELS then create_comment v ("Begin operation: " ++ obj.Label)
         else create_comment v "Begin operation"]
      let gcode :=
        if v.SHOW_MACHINE_UNITS then
          gcode ++ [create_comment v ("Machine units: " ++ v.UNIT_SPEED_FORMAT)]
        else gcode
      if v.OUTPUT_MACHINE_NAME then
        gcode ++ [create_comment v ("Machine: " ++ v.MACHINE_NAME ++ ", " ++ v.UNIT_SPEED_FORMAT)]
      else gcode
    else gcode
  gcode ++ v.PRE_OPERATION

/-- `output_postop`: the finish-operation comment and the configured
post-operation lines. -/
def output_postop (v : Values) (gcode : Gcode) (obj : PathObj) : Gcode :=
  let gcode :=
    if v.OUTPUT_COMMENTS then
      gcode ++
        [if v.SHOW_OPERATION_LABELS then
           create_comment v (v.FINISH_LABEL ++ " operation: " ++ obj.Label)
         else create_comment v (v.FINISH_LABEL ++ " operation")]
    else gcode
  gcode ++ v.POST_OPERATION

/-- `output_tool_list`: one comment per tool controller in the list. -/
def output_tool_list (v : Values) (gcode : Gcode) (objectslist : List PathObj) : Gcode :=
  if v.OUTPUT_COMMENTS && v.LIST_TOOLS_IN_PREAMBLE then
    gcode ++ (objectslist.filter (fun item => item.isToolController)).map
      (fun item => create_comment v ("T" ++ toString item.tc.ToolNumber ++ "=" ++ item.Label))
  else gcode

/-- Python substring containment `pat in s` (checked at every start
position). -/
def strContains (s pat : String) : Bool :=
  (List.range (s.data.length + 1)).any (fun off => pat.data.isPrefixOf (s.data.drop off))

/-- Python `"Fixture" in pathobj.Name`. -/
def nameHasFixture (s : String) : Bool :=
  strContains s "Fixture"

/-- The command-name normalization at the top of the command loop of
`parse_a_path`: `G0x → Gx` (unless the name is exactly `"G0"`) and
`M0x → Mx` (unless it is exactly `"M0"`). -/
def normalize_name (n : String) : String :=
  let n := if n ≠ "G0" then n.replace "G0" "G" else n
  if n ≠ "M0" then n.replace "M0" "M" else n

/-- The `match` over G-codes in the command loop: `G0`/`G1` go to
`output_line`, `G2`/`G3` to `output_arc`, anything else does nothing. -/
def g_dispatch (name : String) (v : Values) (gcode : Gcode) (cmd : Cmd)
    (cur : CurParams) : Except PyErr (Gcode × CurParams) :=
  if name = "G0" || name = "G1" then output_line v gcode cmd cur
  else if name = "G2" || name = "G3" then Except.ok (output_arc v gcode cmd cur)
  else Except.ok (gcode, cur)

/-- The `match` over M-codes in the command loop: `M1` to
`output_optional_stop`, `M2`/`M30` to `output_forced_stop`, `M6` to
`output_tool_change` (handing over the path object as the tool
controller), anything else does nothing. -/
def m_dispatch (name : String) (v : Values) (gcode : Gcode) (p : PathObj) :
    Values × Gcode :=
  if name = "M1" then (v, output_optional_stop v gcode)
  else if name = "M2" || name = "M30" then (v, output_forced_stop v gcode)
  else if name = "M6" then output_tool_change v gcode p.tc
  else (v, gcode)

/-- One iteration of the command loop of `parse_a_path`: normalize the
command name, skip empty names unless blank lines are requested, record
`G90`/`G91` in `MOTION_MODE` and `G98`/`G99` in the local drill retract
mode, then run the G-code dispatch followed by the M-code dispatch. -/
def parse_one_command (v : Values) (gcode : Gcode) (cur : CurParams) (drill : String)
    (p : PathObj) (cmd : Cmd) : Except PyErr (Values × Gcode × CurParams × String) :=
  let name := normalize_name cmd.Name
  if name = "" && !v.OUTPUT_BLANK_LINES then Except.ok (v, gcode, cur, drill)
  else
    let v := if name = "G90" || name = "G91" then { v with MOTION_MODE := name } else v
    let drill := if name = "G98" || name = "G99" then name else drill
    match g_dispatch name v gcode cmd cur with
    | Except.error e => Except.error e
    | Except.ok (gcode, cur) =>
      Except.ok ((m_dispatch name v gcode p).1, (m_dispatch name v gcode p).2, cur, drill)

/-- The command loop of `parse_a_path`: every command of the stream is
visited exactly once, in order. -/
def parse_commands (v : Values) (gcode : Gcode) (cur : CurParams) (drill : String)
    (p : PathObj) : List Cmd → Except PyErr (Values × Gcode × CurParams × String)
  | [] => Except.ok (v, gcode, cur, drill)
  | cmd :: rest =>
    match parse_one_command v gcode cur drill p cmd with
    | Except.error e => Except.error e
    | Except.ok (v', gcode', cur', drill') => parse_commands v' gcode' cur' drill' p rest

/-- `parse_a_path`: skip fixture operations, otherwise run the command
loop starting from the sentinel `current_parameters`. -/
def parse_a_path (v : Values) (gcode : Gcode) (p : PathObj) :
    Except PyErr (Values × Gcode) :=
  if nameHasFixture p.Name then Except.ok (v, gcode)
  else
    match parse_commands v gcode initialCurParams "G98" p p.commands with
    | Except.error e => Except.error e
    | Except.ok (v', gcode', _, _) => Except.ok (v', gcode')

mutual

/-- `parse_a_group`: recurse through compounds (objects with a `Group`
attribute), emitting a compound comment first; for simple objects,
objects without a `Path` attribute are skipped, and paths go through
`parse_a_path` (after an optional path-label comment). -/
def parse_a_group (v : Values) (gcode : Gcode) (p : PathObj) :
    Except PyErr (Values × Gcode) :=
  match p with
  | .mk _ label _ hasGroup children _ _ _ _ _ _ =>
    if hasGroup then
      let gcode :=
        if v.OUTPUT_COMMENTS then gcode ++ [create_comment v ("Compound: " ++ label)]
        else gcode
      parse_group_list v gcode children
    else
      if !p.hasPathAttr then Except.ok (v, gcode)
      else
        let gcode :=
          if v.OUTPUT_PATH_LABELS && v.OUTPUT_COMMENTS then
            gcode ++ [create_comment v ("Compound: " ++ label)]
          else gcode
        parse_a_path v gcode p

/-- The `for p in pathobj.Group` loop of `parse_a_group`. -/
def parse_group_list (v : Values) (gcode : Gcode) :
    List PathObj → Except PyErr (Values × Gcode)
  | [] => Except.ok (v, gcode)
  | child :: rest =>
    match parse_a_group v gcode child with
    | Except.error e => Except.error e
    | Except.ok (v', gcode') => parse_group_list v' gcode' rest

end

/-- The numbering loop of `add_linenumbers`: a line is rewritten to
`LINE_PREFIX + line number + LINE_POSTFIX + line` (and the counter
advanced by `LINE_INCREMENT`) unless it is a comment line and
`LINE_NUMBER_ON_COMMENTS` is off, in which case it is left as is. -/
def numberLines (v : Values) : List String → List String
  | [] => []
  | line :: rest =>
    if (!line.startsWith v.COMMENT_PRE && !v.LINE_NUMBER_ON_COMMENTS) ||
        v.LINE_NUMBER_ON_COMMENTS then
      (v.LINE_PRE ++ toString v.line_number ++ v.LINE_POST ++ line) ::
        numberLines { v with line_number := v.line_number + v.LINE_INCREMENT } rest
    else line :: numberLines v rest

/-- `add_linenumbers`: rewrite the buffer in place, line by line, when
line numbers are requested.  (The mutated `values["line_number"]` is not
read again by the modelled export path and is not returned.) -/
def add_linenumbers (v : Values) (gcode : Gcode) : Gcode :=
  if !v.OUTPUT_LINE_NUMBERS then gcode else numberLines v gcode

/-- The result of one `export` call: the Python return value (`retval`)
and, when the success path reached `finalize_export`, the buffer handed
to it, plus the final state of the mutated `values` dictionary. -/
structure ExportRet where
  retval : Option String
  written : Option Gcode
  vfinal : Values
  deriving Repr

/-- The `for obj in objectslist` loop of `export`: skip inactive
operations, then BCNC header, pre-operation output, coolant update,
group/path parsing and post-operation output. -/
def export_loop (v : Values) (gcode : Gcode) :
    List PathObj → Except PyErr (Values × Gcode)
  | [] => Except.ok (v, gcode)
  | obj :: rest =>
    if !obj.active then export_loop v gcode rest
    else
      let gcode := output_start_bcnc v gcode obj
      let gcode := output_preop v gcode obj
      let (v, gcode) := output_coolant_update v gcode obj.coolantMode
      match parse_a_group v gcode obj with
      | Except.error e => Except.error e
      | Except.ok (v, gcode) =>
        let gcode := output_postop v gcode obj
        export_loop v gcode rest

/-- `export` from `heidenhain_post.py`: `return None` when some object
has no `Path` attribute, `return None` when the list is empty, and on the
success path build the whole buffer, number it, hand it to
`finalize_export` — and fall off the end of the function, which in Python
returns `None` despite the declared return type `str`. -/
def «export» (v : Values) (objectslist : List PathObj) : Except PyErr ExportRet :=
  if objectslist.any (fun o => !o.hasPathAttr) then Except.ok ⟨none, none, v⟩
  else
    match objectslist with
    | [] => Except.ok ⟨none, none, v⟩
    | first :: _ =>
      let job := first.job
      let gcode : Gcode := []
      let gcode := output_header v gcode
      let gcode := output_safetyblock v gcode
      let gcode := output_tool_list v gcode objectslist
      let gcode := output_preamble v gcode
      let gcode := output_pgm_begin v gcode job
      match output_stock_definition v gcode job with
      | Except.error e => Except.error e
      | Except.ok gcode =>
        match export_loop v gcode objectslist with
        | Except.error e => Except.error e
        | Except.ok (v, gcode) =>
          let gcode := output_pgm_end v gcode job
          let gcode := output_postamble_header v gcode
          let gcode := output_tool_return v gcode
          let gcode := output_safetyblock v gcode
          let gcode := output_postamble v gcode
          let gcode := add_linenumbers v gcode
          Except.ok ⟨none, some gcode, v⟩

/-- `process_postables` from the `Refactored_Heidenhain` class in
`heidenhain_post.py`: post-process every section of the build list and
pair each part name with the value returned by `export` for it.  The
shared `self.values` dictionary is threaded through the calls. -/
def process_postables (v : Values) :
    List (String × List PathObj) → Except PyErr (Values × List (String × Option String))
  | [] => Except.ok (v, [])
  | (partname, sublist) :: rest =>
    match «export» v sublist with
    | Except.error e => Except.error e
    | Except.ok r =>
      match process_postables r.vfinal rest with
      | Except.error e => Except.error e
      | Except.ok (v', sections) => Except.ok (v', (partname, r.retval) :: sections)

namespace RHP

/-- `create_comment` from `refactored_heidenhain_post.py` (textually the
same as the sibling's). -/
def create_comment (v : Values) (comment_string : String) : String :=
  v.COMMENT_PRE ++ comment_string ++ v.COMMENT_POST

/-- `output_coolant_update` from `refactored_heidenhain_post.py`: the
caller (its `export`) has already checked that the mode changed, so this
version only checks `ENABLE_COOLANT`, runs the same `match` over
`(coolant_mode, SUPPORT_FLOOD_COOLANT, SUPPORT_MIST_COOLANT)`, emits the
same comment and appends the same command; it tracks no state in
`values`. -/
def output_coolant_update (v : Values) (gcode : Gcode) (coolant_mode : String) : Gcode :=
  if v.ENABLE_COOLANT then
    let decision : Option (String × String) :=
      if coolant_mode = "None" then some ("None", "M9")
      else if (coolant_mode = "Flood" && v.SUPPORT_FLOOD_COOLANT) ||
          (coolant_mode = "Mist" && v.SUPPORT_FLOOD_COOLANT && !v.SUPPORT_MIST_COOLANT) then
        some ("Flood", "M8")
      else if (coolant_mode = "Mist" && v.SUPPORT_MIST_COOLANT) ||
          (coolant_mode = "Flood" && !v.SUPPORT_FLOOD_COOLANT && v.SUPPORT_MIST_COOLANT) then
        some ("Mist", "M7")
      else none
    match decision with
    | none => gcode
    | some (used, command) =>
      let gcode :=
        if v.OUTPUT_COMMENTS then
          gcode ++
            [RHP.create_comment v
              (if coolant_mode = "None" then "Coolant Off"
               else if coolant_mode = used then "Coolant On: " ++ coolant_mode
               else "Coolant On: " ++ coolant_mode ++ " not available, using " ++ used)]
        else gcode
      gcode ++ [command]
  else gcode

end RHP

/-- A concrete `values` state: the defaults set by `init_values` in
`heidenhain_post.py` for the keys it assigns, together with plausible
framework defaults for the inherited keys, used for concrete witnesses. -/
def sampleValues : Values :=
  { MACHINE_NAME := "Heidenhain"
    POSTPROCESSOR_FILE_NAME := "heidenhain_post"
    OUTPUT_COMMENTS := true
    OUTPUT_HEADER := true
    OUTPUT_BCNC := false
    OUTPUT_LINE_NUMBERS := true
    LINE_NUMBER_ON_COMMENTS := true
    LIST_TOOLS_IN_PREAMBLE := true
    SHOW_OPERATION_LABELS := true
    SHOW_MACHINE_UNITS := false
    OUTPUT_MACHINE_NAME := false
    OUTPUT_PATH_LABELS := false
    OUTPUT_BLANK_LINES := false
    OUTPUT_TOOL_CHANGE := true
    STOP_SPINDLE_FOR_TOOL_CHANGE := true
    ENABLE_COOLANT := true
    SUPPORT_FLOOD_COOLANT := true
    SUPPORT_MIST_COOLANT := false
    USE_FMAX := true
    PGM_UPPERCASE := true
    SUPPORT_CYLINDER_STOCK := false
    NORMALIZE_PARAMETERS := true
    DECIMAL_COMMAS := true
    TOOL_BEFORE_CHANGE := false
    COMMENT_PRE := "; ("
    COMMENT_POST := ")"
    LINE_PRE := ""
    LINE_POST := "  "
    FINISH_LABEL := "Finish"
    UNITS := "G21"
    UNIT_FORMAT := "mm"
    UNIT_SPEED_FORMAT := "mm/min"
    MOTION_MODE := "G90"
    PREAMBLE := []
    POSTAMBLE := []
    SAFETYBLOCK := []
    TOOLRETURN := []
    TOOL_CHANGE := []
    PRE_OPERATION := []
    POST_OPERATION := []
    AXIS_PRECISION := 3
    FEED_PRECISION := 3
    SPINDLE_DECIMALS := 0
    FMAX_SPEED := 8000
    UNIT_LENGTH_FACTOR := 1
    UNIT_SPEED_FACTOR := 60
    line_number := 1
    LINE_INCREMENT := 1
    spindle_state := "None"
    spindle_dir := "None"
    coolant_mode := "None"
    cam_file := "<None>"
    output_time := "2025-01-01 00:00:00" }

/-- A concrete tracked-parameter state with known coordinates, used for
concrete witnesses and counterexamples. -/
def sampleCur : CurParams :=
  { initialCurParams with X := 0, Y := 0, Z := 0, R := "0" }

/-- A concrete `G1` linear move. -/
def sampleLineCmd : Cmd :=
  { Name := "G1", x := some 10, y := some 0, f := some 2 }

/-- A concrete `G2` arc carrying an `I` center offset and a changed feed. -/
def sampleArcCmd : Cmd :=
  { Name := "G2", x := some 10, y := some 0, i := some 5, f := some 2 }

/-- A concrete tool controller. -/
def sampleTC : ToolController :=
  { ToolNumber := 2, SpindleDir := "Forward", SpindleSpeed := 4000 }

/-- A concrete job with a label and no stock. -/
def sampleJob : Job :=
  { JLabel := some "Job", JStock := none }

/-- A concrete simple path object carrying `sampleLineCmd`. -/
def samplePathObj : PathObj :=
  .mk "Profile" "Profile" true false [] [sampleLineCmd] true "None" false sampleTC sampleJob

/-- A concrete `G1` command carrying an `M` parameter. -/
def sampleLineCmdM : Cmd :=
  { Name := "G1", x := some 10, m := some "3" }

/-- A concrete `G2` arc whose feed parameter equals the rapid speed
`FMAX_SPEED / 60` and differs from the tracked feed, so the point line
gets a `" F MAX"` word after the direction word. -/
def sampleArcCmdFmax : Cmd :=
  { Name := "G2", f := some (8000 / 60) }

/-- A concrete `G2` arc carrying no feed and no `M` parameter. -/
def sampleArcCmdNoF : Cmd :=
  { Name := "G2", x := some 10, y := some 0, i := some 5 }

/-- The number of characters after the last decimal point of a rendered
number (the whole string when it has no point). -/
def decimalsAfter (s : String) : Nat :=
  (s.data.reverse.takeWhile (fun c => c ≠ '.')).length

/-- `s` ends with `t`. -/
def strEndsWith (s t : String) : Bool :=
  t.data.reverse.isPrefixOf s.data.reverse

/-- What claim C1 asserts of `output_line` for a `G0`/`G1` command in
absolute motion mode: every axis word and the feed word are emitted
exactly when the command's value differs from the tracked value (for `G0`
the feed is forced to `FMAX_SPEED / 60`), each emitted parameter's tracked
value is updated to the command's value, and no line at all is appended
when the built line is still the bare `"L"`. -/
def OutputLineSpec (v : Values) (gcode : Gcode) (cmd : Cmd) (cur : CurParams) : Prop :=
  let fmax := v.FMAX_SPEED / 60
  let effF : Option ℚ := if cmd.Name = "G0" then some fmax else cmd.f
  let wX := match cmd.x with
    | none => ""
    | some q => if q ≠ cur.X then " " ++ "X" ++ format_for_axis v q else ""
  let wY := match cmd.y with
    | none => ""
    | some q => if q ≠ cur.Y then " " ++ "Y" ++ format_for_axis v q else ""
  let wZ := match cmd.z with
    | none => ""
    | some q => if q ≠ cur.Z then " " ++ "Z" ++ format_for_axis v q else ""
  let wA := match cmd.a with
    | none => ""
    | some q => if q ≠ cur.A then " " ++ "A" ++ format_for_axis v q else ""
  let wB := match cmd.b with
    | none => ""
    | some q => if q ≠ cur.B then " " ++ "B" ++ format_for_axis v q else ""
  let wC := match cmd.c with
    | none => ""
    | some q => if q ≠ cur.C then " " ++ "C" ++ format_for_axis v q else ""
  let wR := if ("0" : String) ≠ cur.R then " R" ++ "0" else ""
  let wF := match effF with
    | none => ""
    | some q =>
      if q ≠ cur.F then
        (if v.USE_FMAX && q = fmax then " F MAX" else " F" ++ format_for_feed v q)
      else ""
  let line := "L" ++ wX ++ wY ++ wZ ++ wA ++ wB ++ wC ++ wR ++ wF
  let cur' : CurParams :=
    { X := cmd.x.getD cur.X, Y := cmd.y.getD cur.Y, Z := cmd.z.getD cur.Z
      A := cmd.a.getD cur.A, B := cmd.b.getD cur.B, C := cmd.c.getD cur.C
      I := cur.I, J := cur.J, K := cur.K, F := effF.getD cur.F, S := cur.S
      R := "0", D := cur.D }
  output_line v gcode cmd cur =
    if line = "L" then Except.ok (gcode, cur') else Except.ok (gcode ++ [line], cur')

/-- What the amended claim C3 asserts of `output_arc` for a `G2`/`G3`
command in absolute motion mode whose feed does not change and which
carries no `M` parameter: the `CC` center line is emitted exactly when an
`I` or `J` offset is present, its coordinates are the pre-command position
plus the offsets, the `C` point line carries the command's new `X`/`Y`
endpoint (never `Z` or `K`), and the point line ends with the direction
word `" DR-"` (`G2`) or `" DR+"` (`G3`). -/
def OutputArcSpec (v : Values) (gcode : Gcode) (cmd : Cmd) (cur : CurParams) : Prop :=
  let dirWord := if cmd.Name = "G2" then " DR-" else " DR+"
  let center := "CC" ++
    (match cmd.i with | none => "" | some iv => " " ++ "X" ++ format_for_axis v (cur.X + iv)) ++
    (match cmd.j with | none => "" | some jv => " " ++ "Y" ++ format_for_axis v (cur.Y + jv))
  let point := "C" ++
    (match cmd.x with | none => "" | some xv => " " ++ "X" ++ format_for_axis v xv) ++
    (match cmd.y with | none => "" | some yv => " " ++ "Y" ++ format_for_axis v yv) ++
    (if ("0" : String) ≠ cur.R then " R" ++ "0" else "") ++ dirWord
  (output_arc v gcode cmd cur).1 =
    (if cmd.i.isSome || cmd.j.isSome then gcode ++ [center, point] else gcode ++ [point]) ∧
  strEndsWith point dirWord = true

/-- The coolant command table exactly as claim C4 words it: `M9` for mode
`"None"`; `M8` for `"Flood"` with flood supported or `"Mist"` with only
flood supported; `M7` for `"Mist"` with mist supported or `"Flood"` with
only mist supported; otherwise no command. -/
def c4Expected (mode : String) (flood mist : Bool) : Option (String × String) :=
  if mode = "None" then some ("None", "M9")
  else if mode = "Flood" ∧ flood = true then some ("Flood", "M8")
  else if mode = "Mist" ∧ flood = true ∧ mist = false then some ("Flood", "M8")
  else if mode = "Mist" ∧ mist = true then some ("Mist", "M7")
  else if mode = "Flood" ∧ flood = false ∧ mist = true then some ("Mist", "M7")
  else none

/-- A variant of `sampleValues` with a positive spindle precision, so the
decimal-place count of the spindle format is meaningful. -/
def sampleValuesS1 : Values :=
  { sampleValues with SPINDLE_DECIMALS := 1 }

/-- What claim C2 asserts of the formatting helpers: the fixed-point
rendering behind `format_for_axis` has a forced leading sign and exactly
`AXIS_PRECISION` digits after the decimal point, the feed and spindle
renderings have `FEED_PRECISION` and `SPINDLE_DECIMALS` digits, each
`format_for_*` is that rendering post-processed by `format_parameter`,
and `format_parameter` strips trailing zeros then a trailing point before
substituting commas for points (`"+2.000"` becomes `"+2"`, not
`"+2,000"`). -/
def FormattingSpec (v : Values) (q : ℚ) (s : String) : Prop :=
  (∃ rest, pyFormatFixed true v.AXIS_PRECISION (q * v.UNIT_LENGTH_FACTOR) = "+" ++ rest ∨
      pyFormatFixed true v.AXIS_PRECISION (q * v.UNIT_LENGTH_FACTOR) = "-" ++ rest) ∧
  decimalsAfter (pyFormatFixed true v.AXIS_PRECISION (q * v.UNIT_LENGTH_FACTOR)) =
    v.AXIS_PRECISION ∧
  decimalsAfter (pyFormatFixed false v.FEED_PRECISION (q * v.UNIT_SPEED_FACTOR)) =
    v.FEED_PRECISION ∧
  decimalsAfter (pyFormatFixed false v.SPINDLE_DECIMALS q) = v.SPINDLE_DECIMALS ∧
  format_for_axis v q =
    format_parameter v (pyFormatFixed true v.AXIS_PRECISION (q * v.UNIT_LENGTH_FACTOR)) ∧
  format_for_feed v q =
    format_parameter v (pyFormatFixed false v.FEED_PRECISION (q * v.UNIT_SPEED_FACTOR)) ∧
  format_for_spindle v q = format_parameter v (pyFormatFixed false v.SPINDLE_DECIMALS q) ∧
  (v.NORMALIZE_PARAMETERS = true → containsChar s '.' = true →
    format_parameter v s =
      (if v.DECIMAL_COMMAS then commaSubst (rstripChar (rstripChar s '0') '.')
       else rstripChar (rstripChar s '0') '.')) ∧
  (v.NORMALIZE_PARAMETERS = true → v.DECIMAL_COMMAS = true →
    format_parameter v "+2.000" = "+2")

/-- What claim C4 asserts of `output_coolant_update`: with an unchanged
mode nothing happens; with a changed mode the command of the claim's
table (`c4Expected`) is appended — as exactly one command, after an
optional comment — and the tracked mode becomes the mode actually used,
while an unsupported request changes nothing. -/
def CoolantUpdateSpec (v : Values) (gcode : Gcode) (mode : String) : Prop :=
  (v.coolant_mode = mode → output_coolant_update v gcode mode = (v, gcode)) ∧
  (v.coolant_mode ≠ mode →
    match c4Expected mode v.SUPPORT_FLOOD_COOLANT v.SUPPORT_MIST_COOLANT with
    | some (used, command) =>
      output_coolant_update v gcode mode =
        ({ v with coolant_mode := used },
         (if v.OUTPUT_COMMENTS then gcode ++ [create_comment v (coolantComment mode used)]
          else gcode) ++ [command])
    | none => output_coolant_update v gcode mode = (v, gcode))

/-- What claim C5 asserts of `output_tool_change` when tool-change output
is enabled: between the toolchange comments, in order, an `M5` exactly
when the spindle must be stopped (with `spindle_state` reset), the
`TOOL CALL` line, `M6`, the spindle restart matching the controller's
direction, and the configured `TOOL_CHANGE` lines, with `spindle_dir`
updated to the controller's direction. -/
def ToolChangeSpec (v : Values) (gcode : Gcode) (tc : ToolController) : Prop :=
  let stopSpindle := v.STOP_SPINDLE_FOR_TOOL_CHANGE && v.spindle_state ≠ "None"
  output_tool_change v gcode tc =
    ({ v with spindle_state := if stopSpindle then "None" else v.spindle_state
              spindle_dir := tc.SpindleDir },
     gcode ++
       (if v.OUTPUT_COMMENTS then [create_comment v "Begin toolchange"] else []) ++
       (if stopSpindle then ["M5"] else []) ++
       ["TOOL CALL " ++ toString tc.ToolNumber ++ " Z S" ++
          format_for_spindle v tc.SpindleSpeed] ++
       ["M6"] ++
       (if tc.SpindleDir = "Forward" then ["M3"]
        else if tc.SpindleDir = "Reverse" then ["M4"] else []) ++
       v.TOOL_CHANGE ++
       (if v.OUTPUT_COMMENTS then [create_comment v "End toolchange"] else []))

/-! ## Helper lemmas -/

theorem natDecimals_length (p : Nat) : ∀ n, (natDecimals p n).length = p := by
  induction p with
  | zero => intro n; rfl
  | succ k ih => intro n; simp [natDecimals, ih]

theorem digitChar_ne_dot (d : Nat) : digitChar d ≠ '.' := by
  unfold digitChar
  split <;> decide

theorem natDecimals_ne_dot (p : Nat) : ∀ n, ∀ c ∈ natDecimals p n, c ≠ '.' := by
  induction p with
  | zero => intro n c hc; simp [natDecimals] at hc
  | succ k ih =>
    intro n c hc
    simp only [natDecimals, List.mem_append, List.mem_singleton] at hc
    rcases hc with hc | hc
    · exact ih _ c hc
    · subst hc; exact digitChar_ne_dot n

theorem takeWhile_append_stop (p : Char → Bool) (l1 l2 : List Char) (c : Char)
    (h1 : ∀ a ∈ l1, p a = true) (hc : p c = false) :
    (l1 ++ c :: l2).takeWhile p = l1 := by
  induction l1 with
  | nil => simp [List.takeWhile_cons, hc]
  | cons a t ih =>
    simp [List.takeWhile_cons, h1 a (List.mem_cons_self a t),
      ih (fun x hx => h1 x (List.mem_cons_of_mem a hx))]

theorem decimalsAfter_pyFormatFixed (signed : Bool) (prec : Nat) (q : ℚ) (hp : 0 < prec) :
    decimalsAfter (pyFormatFixed signed prec q) = prec := by
  unfold pyFormatFixed decimalsAfter
  simp only [Nat.pos_iff_ne_zero] at hp
  simp only [hp, if_false]
  rw [String.data_append, String.data_append]
  have hdot : (("." : String) ++ ⟨natDecimals prec ((rhe (|q| * (10 : ℚ) ^ prec)).toNat)⟩).data
      = '.' :: natDecimals prec ((rhe (|q| * (10 : ℚ) ^ prec)).toNat) := rfl
  rw [hdot]
  rw [List.reverse_append, List.reverse_cons]
  rw [List.append_assoc, List.singleton_append]
  rw [takeWhile_append_stop _ _ _ '.'
    (by
      intro a ha
      simp only [List.mem_reverse] at ha
      simp [natDecimals_ne_dot prec _ a ha])
    (by simp)]
  simp [natDecimals_length]

theorem pyFormatFixed_signed_head (prec : Nat) (q : ℚ) :
    ∃ rest, pyFormatFixed true prec q = "+" ++ rest ∨ pyFormatFixed true prec q = "-" ++ rest := by
  unfold pyFormatFixed
  by_cases h : q < 0
  · exact ⟨_, Or.inr (by rw [if_pos h, String.append_assoc])⟩
  · exact ⟨_, Or.inl (by rw [if_neg h, if_pos rfl, String.append_assoc])⟩

theorem axisStep_absolute (v : Values) (pv : Option ℚ) (pname : String) (curv : ℚ)
    (h : v.MOTION_MODE ≠ "G91") :
    axisStep v pv pname curv =
      (match pv with
       | none => ""
       | some q => if q ≠ curv then " " ++ pname ++ format_for_axis v q else "",
       pv.getD curv) := by
  cases pv with
  | none => rfl
  | some q =>
    simp only [axisStep, h, if_false, Option.getD_some]
    by_cases hq : q = curv
    · subst hq; simp
    · simp [hq]

theorem fStep_eq (v : Values) (fv : Option ℚ) (curF fmax : ℚ) :
    fStep v fv curF fmax =
      (match fv with
       | none => ""
       | some q =>
         if q ≠ curF then
           (if v.USE_FMAX && q = fmax then " F MAX" else " F" ++ format_for_feed v q)
         else "",
       fv.getD curF) := by
  cases fv with
  | none => rfl
  | some q =>
    simp only [fStep, Option.getD_some]
    by_cases hq : q = curF
    · subst hq; simp
    · simp [hq]

theorem rStep_eq (curR : String) :
    rStep "0" curR = (if ("0" : String) ≠ curR then " R" ++ "0" else "", "0") := by
  unfold rStep
  by_cases h : ("0" : String) = curR
  · subst h
    simp
  · simp [h]

theorem arcAbsUpdate_eq (cur : CurParams) (cmd : Cmd) :
    arcAbsUpdate cur cmd =
      { cur with
        I := match cmd.i with | some q => cur.X + q | none => cur.I
        X := match cmd.x with | some q => q | none => cur.X
        J := match cmd.j with | some q => cur.Y + q | none => cur.J
        Y := match cmd.y with | some q => q | none => cur.Y
        K := match cmd.k with | some q => cur.Z + q | none => cur.K
        Z := match cmd.z with | some q => q | none => cur.Z } := by
  unfold arcAbsUpdate
  cases cmd.i <;> cases cmd.x <;> cases cmd.j <;> cases cmd.y <;> cases cmd.k <;>
    cases cmd.z <;> rfl

theorem arcPointAxis_absolute (v : Values) (pv : Option ℚ) (pname : String) (curv : ℚ)
    (h : v.MOTION_MODE ≠ "G91") :
    arcPointAxis v pv pname curv =
      (match pv with
       | none => ""
       | some _ => " " ++ pname ++ format_for_axis v curv, curv) := by
  cases pv with
  | none => rfl
  | some q => simp [arcPointAxis, h]

theorem append_word_ne (s p f : String) : s ++ (" " ++ p ++ f) ≠ s := by
  intro he
  have hl := congrArg String.length he
  rw [String.length_append, String.length_append, String.length_append] at hl
  have h1 : (" " : String).length = 1 := rfl
  omega

theorem append_word_append_ne (s p f w : String) : s ++ (" " ++ p ++ f) ++ w ≠ s := by
  intro he
  have hl := congrArg String.length he
  rw [String.length_append, String.length_append, String.length_append,
    String.length_append] at hl
  have h1 : (" " : String).length = 1 := rfl
  omega

theorem append_wordY_ne (s f : String) : s ++ (" Y" ++ f) ≠ s := by
  intro he
  have hl := congrArg String.length he
  rw [String.length_append, String.length_append] at hl
  have h1 : (" Y" : String).length = 2 := rfl
  omega

theorem append_wordX_ne (s f : String) : s ++ (" X" ++ f) ≠ s := by
  intro he
  have hl := congrArg String.length he
  rw [String.length_append, String.length_append] at hl
  have h1 : (" X" : String).length = 2 := rfl
  omega

theorem append_wordX_append_ne (s f w : String) : s ++ (" X" ++ f) ++ w ≠ s := by
  intro he
  have hl := congrArg String.length he
  rw [String.length_append, String.length_append, String.length_append] at hl
  have h1 : (" X" : String).length = 2 := rfl
  omega

theorem strEndsWith_append (a b : String) : strEndsWith (a ++ b) b = true := by
  unfold strEndsWith
  rw [String.data_append, List.reverse_append]
  rw [List.isPrefixOf_iff_prefix]
  exact List.prefix_append _ _

/-! ## Claim theorems -/

/-- C1: for every `G0`/`G1` command processed in absolute motion mode
(`MOTION_MODE` not `"G91"`, and no `M` parameter, which would raise — see
C10), `output_line` emits each axis word `X`/`Y`/`Z`/`A`/`B`/`C` and the
feed word `F` only when the command's value differs from the one tracked
in `current_parameters`, updates `current_parameters` to the command's
value for each such parameter, and appends no line at all when the built
line is still the bare `"L"`. -/
theorem c1_output_line_modal_suppression (v : Values) (gcode : Gcode) (cmd : Cmd)
    (cur : CurParams) (hmode : v.MOTION_MODE ≠ "G91") (hm : cmd.m = none)
    (_hname : cmd.Name = "G0" ∨ cmd.Name = "G1") :
    OutputLineSpec v gcode cmd cur := by
  unfold OutputLineSpec output_line
  simp only [axisStep_absolute v _ _ _ hmode, fStep_eq, rStep_eq, hm,
    Option.isSome_none, Bool.false_eq_true, if_false]

/-- Witness for C1: the hypotheses hold at a concrete absolute-mode `G1`
move. -/
theorem c1_witness : OutputLineSpec sampleValues [] sampleLineCmd sampleCur :=
  c1_output_line_modal_suppression sampleValues [] sampleLineCmd sampleCur
    (by decide) rfl (Or.inr rfl)

/-- C2: every quantity formatted for output gets a forced leading sign
and exactly `AXIS_PRECISION` decimal places from `format_for_axis`'s
renderer, `FEED_PRECISION` from `format_for_feed`'s and
`SPINDLE_DECIMALS` from `format_for_spindle`'s; `format_parameter` then
strips trailing zeros and a trailing decimal point (when
`NORMALIZE_PARAMETERS` is set and a point is present) before substituting
commas for points (when `DECIMAL_COMMAS` is set). -/
theorem c2_numeric_formatting (v : Values) (q : ℚ) (s : String)
    (hA : 0 < v.AXIS_PRECISION) (hF : 0 < v.FEED_PRECISION) (hS : 0 < v.SPINDLE_DECIMALS) :
    FormattingSpec v q s := by
  refine ⟨pyFormatFixed_signed_head _ _, decimalsAfter_pyFormatFixed _ _ _ hA,
    decimalsAfter_pyFormatFixed _ _ _ hF, decimalsAfter_pyFormatFixed _ _ _ hS,
    rfl, rfl, rfl, ?_, ?_⟩
  · intro hn hdot
    simp [format_parameter, hn, hdot]
  · intro hn hc
    simp [format_parameter, hn, hc]
    rfl

/-- Witness for C2: the hypotheses hold at positive precisions. -/
theorem c2_witness : FormattingSpec sampleValuesS1 (5 / 2) "+1.500" :=
  c2_numeric_formatting sampleValuesS1 (5 / 2) "+1.500"
    (by decide) (by decide) (by decide)

/-- C10: `output_line` is total only for commands whose parameters do not
contain `M`: any command carrying an `M` parameter reaches the read of the
undefined name `point_line` and raises `NameError`, while a command
without one always returns normally. -/
theorem c10_output_line_nameerror (v : Values) (gcode : Gcode) (cmd : Cmd)
    (cur : CurParams) :
    (∀ s, cmd.m = some s → output_line v gcode cmd cur = Except.error PyErr.nameError) ∧
    (cmd.m = none → ∃ res, output_line v gcode cmd cur = Except.ok res) := by
  constructor
  · intro s hs
    simp [output_line, hs]
  · intro hm
    simp only [output_line, hm, Option.isSome_none, Bool.false_eq_true, if_false]
    split <;> split <;> exact ⟨_, rfl⟩

/-- Witness for C10: a concrete command with `M` raises, and the same
command without `M` returns. -/
theorem c10_witness :
    output_line sampleValues [] sampleLineCmdM sampleCur = Except.error PyErr.nameError ∧
    ∃ res, output_line sampleValues [] sampleLineCmd sampleCur = Except.ok res :=
  ⟨(c10_output_line_nameerror sampleValues [] sampleLineCmdM sampleCur).1 "3" rfl,
   (c10_output_line_nameerror sampleValues [] sampleLineCmd sampleCur).2 rfl⟩

/-- C3 counterexample: the claim's "point line ... ends with direction
`\" DR-\"` for `G2`" fails on the code.  For a `G2` command in absolute
mode whose feed parameter differs from the tracked feed, the parameter
loop emits the feed word after the direction word (`F` follows `D` in
`PARAMETER_ORDER`), so the point line ends with the feed word instead:
here the single emitted line is `"C DR- F MAX"`. -/
theorem c3_counterexample :
    sampleArcCmdFmax.Name = "G2" ∧ sampleValues.MOTION_MODE ≠ "G91" ∧
    (output_arc sampleValues [] sampleArcCmdFmax sampleCur).1 = ["C DR- F MAX"] ∧
    strEndsWith "C DR- F MAX" " DR-" = false := by
  refine ⟨rfl, by decide, ?_, by decide⟩
  have h1 : ((8000 / 60 : ℚ) ≠ (123456789 : ℚ)) ↔ True := iff_true_intro (by norm_num)
  have h2 : ((8000 / 60 : ℚ) = sampleValues.FMAX_SPEED / 60) ↔ True := iff_true_intro rfl
  have hG : (sampleValues.MOTION_MODE = "G91") ↔ False := iff_false_intro (by decide)
  have hU : sampleValues.USE_FMAX = true := rfl
  simp only [output_arc, arcAbsUpdate_eq, sampleArcCmdFmax, sampleCur, initialCurParams,
    hG, if_false, iff_false, fStep, rStep, arcPointAxis, arcCenterWord, h1, h2, hU]
  decide

/-- C3 (amended): for every `G2`/`G3` command processed in absolute
motion mode that carries no `M` parameter and whose feed (if present)
equals the tracked feed, `output_arc` emits a `CC` center line if and
only if the command carries an `I` or `J` offset, with the `CC` `X`/`Y`
coordinates equal to the pre-command position plus the offset; the `C`
point line gives the command's new `X`/`Y` endpoint (`Z` and `K` are
never emitted) and ends with `" DR-"` for `G2` and `" DR+"` for `G3`.
(The amendment: when the command's feed differs from the tracked feed, a
feed word — and for an `M` parameter its text — is appended after the
direction word, so the line only ends with the direction in their
absence; see `c3_counterexample`.) -/
theorem c3_output_arc_amended (v : Values) (gcode : Gcode) (cmd : Cmd) (cur : CurParams)
    (hmode : v.MOTION_MODE ≠ "G91")
    (hname : cmd.Name = "G2" ∨ cmd.Name = "G3")
    (hm : cmd.m = none)
    (hf : cmd.f = none ∨ cmd.f = some cur.F) :
    OutputArcSpec v gcode cmd cur := by
  have hdp : (if cmd.Name = "G2" then some " DR-"
      else if cmd.Name = "G3" then some " DR+"
      else cmd.d) = some (if cmd.Name = "G2" then " DR-" else " DR+") := by
    rcases hname with h | h <;> simp [h]
  have hfw : fStep v cmd.f cur.F (v.FMAX_SPEED / 60) = ("", cur.F) := by
    rcases hf with h | h <;> simp [fStep_eq, h]
  unfold OutputArcSpec output_arc
  simp only [if_neg hmode, arcAbsUpdate_eq, hdp, hfw]
  constructor
  · rcases hname with h | h <;>
      rcases hi : cmd.i with _ | iv <;>
      rcases hj : cmd.j with _ | jv <;>
      rcases hx : cmd.x with _ | xv <;>
      rcases hy : cmd.y with _ | yv <;>
        simp [h, hi, hj, hx, hy, arcPointAxis_absolute v _ _ _ hmode, arcCenterWord,
          rStep_eq, hm, String.append_empty, append_word_ne, append_word_append_ne,
          append_wordX_ne, append_wordY_ne, append_wordX_append_ne]
  · rcases hname with h | h <;> simp only [h] <;> exact strEndsWith_append _ _

/-- Witness for C3: the amended claim's hypotheses hold at a concrete
absolute-mode `G2` arc with an `I` offset and no feed change. -/
theorem c3_witness : OutputArcSpec sampleValues [] sampleArcCmdNoF sampleCur :=
  c3_output_arc_amended sampleValues [] sampleArcCmdNoF sampleCur
    (by decide) (Or.inl rfl) rfl (Or.inl rfl)

/-- C4: for every operation, when coolant is enabled and the requested
mode differs from the tracked `values["coolant_mode"]`,
`output_coolant_update` appends exactly one coolant command according to
the claim's table (`c4Expected`: `M9` for `"None"`, `M8` for `"Flood"`
with flood supported or `"Mist"` with only flood, `M7` for `"Mist"` with
mist supported or `"Flood"` with only mist) and updates
`values["coolant_mode"]` to the mode actually used; when the mode is
unchanged or no supported option matches, it appends nothing and leaves
the tracked mode unchanged. -/
theorem c4_coolant_update (v : Values) (gcode : Gcode) (mode : String)
    (hen : v.ENABLE_COOLANT = true)
    (hmode : mode = "None" ∨ mode = "Flood" ∨ mode = "Mist") :
    CoolantUpdateSpec v gcode mode := by
  constructor
  · intro he
    simp [output_coolant_update, he]
  · intro hne
    rcases hmode with h | h | h <;> subst h <;>
      cases hf : v.SUPPORT_FLOOD_COOLANT <;> cases hm : v.SUPPORT_MIST_COOLANT <;>
        simp [output_coolant_update, coolantDecision, c4Expected, hen, hne, hf, hm]

/-- Witness for C4: the hypotheses hold at a concrete request for flood
coolant. -/
theorem c4_witness : CoolantUpdateSpec sampleValues [] "Flood" :=
  c4_coolant_update sampleValues [] "Flood" rfl (Or.inr (Or.inl rfl))

/-- C8: for every coolant mode in `None`/`Flood`/`Mist` and every
combination of `SUPPORT_FLOOD_COOLANT` and `SUPPORT_MIST_COOLANT`, with
coolant enabled and (for `heidenhain_post.py`) a tracked mode differing
from the request, `output_coolant_update` in `heidenhain_post.py` and
`output_coolant_update` in `refactored_heidenhain_post.py` append the
same lines: the same coolant command (`M7`, `M8`, `M9`, or none) and the
same comment text. -/
theorem c8_coolant_refinement (v : Values) (gcode : Gcode) (mode : String)
    (hen : v.ENABLE_COOLANT = true)
    (hmode : mode = "None" ∨ mode = "Flood" ∨ mode = "Mist")
    (hne : v.coolant_mode ≠ mode) :
    (output_coolant_update v gcode mode).2 = RHP.output_coolant_update v gcode mode := by
  rcases hmode with h | h | h <;> subst h <;>
    cases hf : v.SUPPORT_FLOOD_COOLANT <;> cases hm : v.SUPPORT_MIST_COOLANT <;>
      cases hoc : v.OUTPUT_COMMENTS <;>
      simp [output_coolant_update, RHP.output_coolant_update, coolantDecision,
        coolantComment, RHP.create_comment, create_comment, hen, hne, hf, hm, hoc]

/-- Witness for C8: the hypotheses hold at a concrete flood request. -/
theorem c8_witness :
    (output_coolant_update sampleValues [] "Flood").2 =
      RHP.output_coolant_update sampleValues [] "Flood" :=
  c8_coolant_refinement sampleValues [] "Flood" rfl (Or.inr (Or.inl rfl)) (by decide)

theorem format_for_spindle_state_dir_update (v : Values) (ss sd : String) (q : ℚ) :
    format_for_spindle { v with spindle_state := ss, spindle_dir := sd } q =
      format_for_spindle v q := rfl

theorem format_for_spindle_dir_update (v : Values) (sd : String) (q : ℚ) :
    format_for_spindle { v with spindle_dir := sd } q = format_for_spindle v q := rfl

theorem append_head_split (a b n u : String) (h : a = b ++ " PGM ") :
    a ++ n ++ " " ++ u = b ++ (" PGM " ++ n ++ " " ++ u) := by
  subst h
  rw [String.append_assoc b, String.append_assoc b, String.append_assoc b]

/-- C5: for every `M6` command, when `OUTPUT_TOOL_CHANGE` is set,
`output_tool_change` appends, in this order: `M5` (only when
`STOP_SPINDLE_FOR_TOOL_CHANGE` is set and the tracked `spindle_state` is
not `"None"`, also resetting it to `"None"`), the
`TOOL CALL <tool number> Z S<spindle speed>` line, `M6`, then `M3` when
the controller's spindle direction is `"Forward"` or `M4` when it is
`"Reverse"`, and finally the configured `TOOL_CHANGE` lines. -/
theorem c5_tool_change (v : Values) (gcode : Gcode) (tc : ToolController)
    (hot : v.OUTPUT_TOOL_CHANGE = true) : ToolChangeSpec v gcode tc := by
  unfold ToolChangeSpec output_tool_change
  simp only [if_pos hot]
  by_cases hstop : v.STOP_SPINDLE_FOR_TOOL_CHANGE && v.spindle_state ≠ "None"
  · simp only [if_pos hstop]
    simp only [format_for_spindle_state_dir_update]
    by_cases hfwd : tc.SpindleDir = "Forward" <;>
      by_cases hrev : tc.SpindleDir = "Reverse" <;>
        cases hoc : v.OUTPUT_COMMENTS <;>
          simp_all [create_comment]
  · simp only [if_neg hstop]
    simp only [format_for_spindle_dir_update]
    by_cases hfwd : tc.SpindleDir = "Forward" <;>
      by_cases hrev : tc.SpindleDir = "Reverse" <;>
        cases hoc : v.OUTPUT_COMMENTS <;>
          simp_all [create_comment]

/-- Witness for C5: the hypothesis holds at a concrete tool controller. -/
theorem c5_witness : ToolChangeSpec sampleValues [] sampleTC :=
  c5_tool_change sampleValues [] sampleTC rfl

/-- C6: the program-begin and program-end lines differ only in their
leading keyword: there is one common tail `t` such that
`output_pgm_begin` appends `"BEGIN" ++ t` and `output_pgm_end` appends
`"END" ++ t`, where `t` carries the identical program name (the job's
label, uppercased when `PGM_UPPERCASE`, defaulting to `"New"`) and the
identical unit string (`"MM"` for `G21`, `"INCH"` for `G20`, else
empty). -/
theorem c6_pgm_begin_end (v : Values) (job : Job) (g1 g2 : Gcode) :
    ∃ t, output_pgm_begin v g1 job = g1 ++ ["BEGIN" ++ t] ∧
      output_pgm_end v g2 job = g2 ++ ["END" ++ t] ∧
      t = " PGM " ++ pgm_job_name v job ++ " " ++ pgm_unit v ∧
      pgm_job_name v job =
        (if v.PGM_UPPERCASE then (job.JLabel.getD "New").toUpper else job.JLabel.getD "New") ∧
      pgm_unit v = (if v.UNITS = "G21" then "MM" else if v.UNITS = "G20" then "INCH" else "") := by
  refine ⟨" PGM " ++ pgm_job_name v job ++ " " ++ pgm_unit v, ?_, ?_, rfl, ?_, rfl⟩
  · unfold output_pgm_begin
    exact congrArg (fun s => g1 ++ [s]) (append_head_split _ _ _ _ rfl)
  · unfold output_pgm_end
    exact congrArg (fun s => g2 ++ [s]) (append_head_split _ _ _ _ rfl)
  · unfold pgm_job_name
    cases job.JLabel <;> rfl

theorem output_line_extends (v : Values) (g : Gcode) (cmd : Cmd) (cur : CurParams)
    (g' : Gcode) (cur' : CurParams) (h : output_line v g cmd cur = Except.ok (g', cur')) :
    g <+: g' := by
  simp only [output_line] at h
  by_cases hm : cmd.m.isSome = true
  · rw [if_pos hm] at h
    exact absurd h (by simp)
  · rw [if_neg hm] at h
    split at h
    · split at h <;> simp only [Except.ok.injEq, Prod.mk.injEq] at h
      · exact ⟨[], by simp [h.1]⟩
      · exact ⟨_, h.1⟩
    · split at h <;> simp only [Except.ok.injEq, Prod.mk.injEq] at h
      · exact ⟨[], by simp [h.1]⟩
      · exact ⟨_, h.1⟩

theorem output_arc_extends (v : Values) (gcode : Gcode) (cmd : Cmd) (cur : CurParams) :
    gcode <+: (output_arc v gcode cmd cur).1 := by
  unfold output_arc
  exact List.IsPrefix.trans (by split <;> split <;> simp) (List.prefix_append _ _)

theorem output_optional_stop_extends (v : Values) (gcode : Gcode) :
    gcode <+: output_optional_stop v gcode := by
  unfold output_optional_stop
  split <;> simp [List.append_assoc]

theorem output_forced_stop_extends (v : Values) (gcode : Gcode) :
    gcode <+: output_forced_stop v gcode := by
  unfold output_forced_stop
  split <;> simp [List.append_assoc]

theorem output_tool_change_extends (v : Values) (gcode : Gcode) (tc : ToolController) :
    gcode <+: (output_tool_change v gcode tc).2 := by
  unfold output_tool_change
  by_cases hot : v.OUTPUT_TOOL_CHANGE
  · simp only [if_pos hot]
    by_cases hstop : v.STOP_SPINDLE_FOR_TOOL_CHANGE && v.spindle_state ≠ "None"
    · simp only [if_pos hstop]
      by_cases hfwd : tc.SpindleDir = "Forward" <;>
        by_cases hrev : tc.SpindleDir = "Reverse" <;>
          cases hoc : v.OUTPUT_COMMENTS <;>
            simp_all [List.append_assoc]
    · simp only [if_neg hstop]
      by_cases hfwd : tc.SpindleDir = "Forward" <;>
        by_cases hrev : tc.SpindleDir = "Reverse" <;>
          cases hoc : v.OUTPUT_COMMENTS <;>
            simp_all [List.append_assoc]
  · simp only [if_neg hot]
    cases hoc : v.OUTPUT_COMMENTS <;> simp_all [List.append_assoc]

theorem g_dispatch_extends (name : String) (v : Values) (gcode : Gcode) (cmd : Cmd)
    (cur : CurParams) (g' : Gcode) (cur' : CurParams)
    (h : g_dispatch name v gcode cmd cur = Except.ok (g', cur')) :
    gcode <+: g' := by
  unfold g_dispatch at h
  split at h
  · exact output_line_extends _ _ _ _ _ _ h
  · split at h
    · simp only [Except.ok.injEq] at h
      have h1 : (output_arc v gcode cmd cur).1 = g' := by rw [h]
      exact h1 ▸ output_arc_extends _ _ _ _
    · simp only [Except.ok.injEq, Prod.mk.injEq] at h
      exact ⟨[], by simp [h.1]⟩

theorem m_dispatch_extends (name : String) (v : Values) (gcode : Gcode) (p : PathObj) :
    gcode <+: (m_dispatch name v gcode p).2 := by
  unfold m_dispatch
  split_ifs
  · exact output_optional_stop_extends _ _
  · exact output_forced_stop_extends _ _
  · exact output_tool_change_extends _ _ _
  · exact List.prefix_refl _

theorem parse_one_command_extends (v : Values) (gcode : Gcode) (cur : CurParams)
    (drill : String) (p : PathObj) (cmd : Cmd) (v' : Values) (g' : Gcode)
    (cur' : CurParams) (d' : String)
    (h : parse_one_command v gcode cur drill p cmd = Except.ok (v', g', cur', d')) :
    gcode <+: g' := by
  simp only [parse_one_command] at h
  split at h
  · simp only [Except.ok.injEq, Prod.mk.injEq] at h
    exact ⟨[], by simp [h.2.1]⟩
  · split at h
    · exact absurd h (by simp)
    · rename_i pr heq
      simp only [Except.ok.injEq, Prod.mk.injEq] at h
      refine List.IsPrefix.trans (g_dispatch_extends _ _ _ _ _ _ _ heq) ?_
      exact h.2.1 ▸ m_dispatch_extends _ _ _ _

theorem parse_commands_extends (p : PathObj) (cmds : List Cmd) :
    ∀ v gcode cur drill v' g' cur' d',
      parse_commands v gcode cur drill p cmds = Except.ok (v', g', cur', d') →
      gcode <+: g' := by
  induction cmds with
  | nil =>
    intro v gcode cur drill v' g' cur' d' h
    simp only [parse_commands, Except.ok.injEq, Prod.mk.injEq] at h
    exact ⟨[], by simp [h.2.1]⟩
  | cons c rest ih =>
    intro v gcode cur drill v' g' cur' d' h
    simp only [parse_commands] at h
    split at h
    · exact absurd h (by simp)
    · rename_i r heq
      exact (parse_one_command_extends _ _ _ _ _ _ _ _ _ _ heq).trans
        (ih _ _ _ _ _ _ _ _ h)

theorem parse_a_path_extends (v : Values) (gcode : Gcode) (p : PathObj)
    (v' : Values) (g' : Gcode)
    (h : parse_a_path v gcode p = Except.ok (v', g')) : gcode <+: g' := by
  unfold parse_a_path at h
  split at h
  · simp only [Except.ok.injEq, Prod.mk.injEq] at h
    exact ⟨[], by simp [h.2]⟩
  · split at h
    · exact absurd h (by simp)
    · rename_i v2 g2 cur2 d2 heq
      simp only [Except.ok.injEq, Prod.mk.injEq] at h
      exact h.2 ▸ parse_commands_extends _ _ _ _ _ _ _ _ _ _ heq

mutual

theorem parse_a_group_extends (v : Values) (gcode : Gcode) (p : PathObj)
    (v' : Values) (g' : Gcode)
    (h : parse_a_group v gcode p = Except.ok (v', g')) : gcode <+: g' := by
  unfold parse_a_group at h
  split at h
  rename_i nm lb hp hg ch cmds act cool itc tcv jb
  split at h
  · split at h
    · exact List.IsPrefix.trans (List.prefix_append _ _)
        (parse_group_list_extends _ _ _ _ _ h)
    · exact parse_group_list_extends _ _ _ _ _ h
  · split at h
    · simp only [Except.ok.injEq, Prod.mk.injEq] at h
      exact ⟨[], by simp [h.2]⟩
    · split at h
      · exact List.IsPrefix.trans (List.prefix_append _ _) (parse_a_path_extends _ _ _ _ _ h)
      · exact parse_a_path_extends _ _ _ _ _ h

theorem parse_group_list_extends (v : Values) (gcode : Gcode) (l : List PathObj)
    (v' : Values) (g' : Gcode)
    (h : parse_group_list v gcode l = Except.ok (v', g')) : gcode <+: g' := by
  match l with
  | [] =>
    simp only [parse_group_list, Except.ok.injEq, Prod.mk.injEq] at h
    exact ⟨[], by simp [h.2]⟩
  | child :: rest =>
    simp only [parse_group_list] at h
    split at h
    · exact absurd h (by simp)
    · rename_i r heq
      exact (parse_a_group_extends _ _ _ _ _ heq).trans
        (parse_group_list_extends _ _ _ _ _ h)

end

theorem numberLines_length (l : List String) : ∀ v, (numberLines v l).length = l.length := by
  induction l with
  | nil => intro v; rfl
  | cons a t ih =>
    intro v
    unfold numberLines
    split <;> simp [ih]

theorem numberLines_suffix (l : List String) :
    ∀ v i, i < l.length →
      ∃ pre, (numberLines v l).getD i "" = pre ++ l.getD i "" := by
  induction l with
  | nil => intro v i hi; simp at hi
  | cons a t ih =>
    intro v i hi
    unfold numberLines
    split
    · match i with
      | 0 => exact ⟨_, rfl⟩
      | n + 1 => exact ih _ n (by simpa using hi)
    · match i with
      | 0 => exact ⟨"", rfl⟩
      | n + 1 => exact ih _ n (by simpa using hi)

theorem numberLines_numbered (l : List String) :
    ∀ v, v.LINE_NUMBER_ON_COMMENTS = true →
      ∀ i, i < l.length →
        (numberLines v l).getD i "" =
          v.LINE_PRE ++ toString (v.line_number + (i : Int) * v.LINE_INCREMENT) ++
            v.LINE_POST ++ l.getD i "" := by
  induction l with
  | nil => intro v _ i hi; simp at hi
  | cons a t ih =>
    intro v hlnc i hi
    unfold numberLines
    rw [if_pos (show (!a.startsWith v.COMMENT_PRE && !v.LINE_NUMBER_ON_COMMENTS ||
      v.LINE_NUMBER_ON_COMMENTS) = true by simp [hlnc])]
    match i with
    | 0 =>
      simp
    | n + 1 =>
      have := ih { v with line_number := v.line_number + v.LINE_INCREMENT } hlnc n
        (by simpa using hi)
      simp only [List.getD_cons_succ]
      rw [this]
      have harith : v.line_number + v.LINE_INCREMENT + (n : Int) * v.LINE_INCREMENT =
          v.line_number + ((n : Int) + 1) * v.LINE_INCREMENT := by ring
      simp [harith]

/-- C7: the gcode buffer is append-only and the line-numbering pass is
shape-preserving.  Whatever `parse_a_path` or `parse_a_group` (the
routines that visit each command of a path's stream once, in order)
produce extends the incoming buffer by new lines only; `add_linenumbers`
neither adds, removes nor reorders lines: the length is preserved, every
original line survives as a suffix of the corresponding output line, and
with line numbers enabled (including on comments) line `i` is rewritten
to `LINE_PREFIX + (line_number + i * LINE_INCREMENT) + LINE_POSTFIX +`
the original line. -/
theorem c7_append_only_linenumbers (v : Values) (gcode : Gcode) (p : PathObj) :
    (∀ v' g', parse_a_path v gcode p = Except.ok (v', g') → ∃ t, g' = gcode ++ t) ∧
    (∀ v' g', parse_a_group v gcode p = Except.ok (v', g') → ∃ t, g' = gcode ++ t) ∧
    (add_linenumbers v gcode).length = gcode.length ∧
    (∀ i, i < gcode.length →
      ∃ pre, (add_linenumbers v gcode).getD i "" = pre ++ gcode.getD i "") ∧
    (v.OUTPUT_LINE_NUMBERS = true → v.LINE_NUMBER_ON_COMMENTS = true →
      ∀ i, i < gcode.length →
        (add_linenumbers v gcode).getD i "" =
          v.LINE_PRE ++ toString (v.line_number + (i : Int) * v.LINE_INCREMENT) ++
            v.LINE_POST ++ gcode.getD i "") := by
  refine ⟨?_, ?_, ?_, ?_, ?_⟩
  · intro v' g' h
    obtain ⟨t, ht⟩ := parse_a_path_extends _ _ _ _ _ h
    exact ⟨t, ht.symm⟩
  · intro v' g' h
    obtain ⟨t, ht⟩ := parse_a_group_extends _ _ _ _ _ h
    exact ⟨t, ht.symm⟩
  · unfold add_linenumbers
    split
    · rfl
    · exact numberLines_length _ _
  · intro i hi
    unfold add_linenumbers
    split
    · exact ⟨"", by
        have : ("" : String) ++ gcode.getD i "" = gcode.getD i "" := by
          apply String.ext
          simp
        rw [this]⟩
    · exact numberLines_suffix _ _ _ hi
  · intro ho hlnc i hi
    unfold add_linenumbers
    rw [if_neg (show ¬((!v.OUTPUT_LINE_NUMBERS) = true) by simp [ho])]
    exact numberLines_numbered _ _ hlnc _ hi

/-- Witness for C7: the conjunction instantiated at a one-line buffer and
a concrete path object. -/
theorem c7_witness :
    (∀ v' g', parse_a_path sampleValues ["x"] samplePathObj = Except.ok (v', g') →
      ∃ t, g' = ["x"] ++ t) ∧
    (∀ v' g', parse_a_group sampleValues ["x"] samplePathObj = Except.ok (v', g') →
      ∃ t, g' = ["x"] ++ t) ∧
    (add_linenumbers sampleValues ["x"]).length = (["x"] : List String).length ∧
    (∀ i, i < (["x"] : List String).length →
      ∃ pre, (add_linenumbers sampleValues ["x"]).getD i "" =
        pre ++ (["x"] : List String).getD i "") ∧
    (sampleValues.OUTPUT_LINE_NUMBERS = true → sampleValues.LINE_NUMBER_ON_COMMENTS = true →
      ∀ i, i < (["x"] : List String).length →
        (add_linenumbers sampleValues ["x"]).getD i "" =
          sampleValues.LINE_PRE ++
            toString (sampleValues.line_number + (i : Int) * sampleValues.LINE_INCREMENT) ++
            sampleValues.LINE_POST ++ (["x"] : List String).getD i "") :=
  c7_append_only_linenumbers sampleValues ["x"] samplePathObj

theorem export_ok_retval (v : Values) (objs : List PathObj) (r : ExportRet)
    (h : «export» v objs = Except.ok r) : r.retval = none := by
  simp only [«export»] at h
  split at h
  · simp only [Except.ok.injEq] at h
    rw [← h]
  · split at h
    · simp only [Except.ok.injEq] at h
      rw [← h]
    · split at h
      · exact absurd h (by simp)
      · split at h
        · exact absurd h (by simp)
        · simp only [Except.ok.injEq] at h
          rw [← h]

theorem process_postables_none (pbs : List (String × List PathObj)) :
    ∀ v v' secs, process_postables v pbs = Except.ok (v', secs) →
      ∀ pr ∈ secs, pr.2 = none := by
  induction pbs with
  | nil =>
    intro v v' secs h pr hpr
    simp only [process_postables, Except.ok.injEq, Prod.mk.injEq] at h
    rw [← h.2] at hpr
    simp at hpr
  | cons sec rest ih =>
    intro v v' secs h pr hpr
    simp only [process_postables] at h
    split at h
    · exact absurd h (by simp)
    · rename_i r heq
      split at h
      · exact absurd h (by simp)
      · rename_i v2 secs2 heq2
        simp only [Except.ok.injEq, Prod.mk.injEq] at h
        rw [← h.2] at hpr
        rcases List.mem_cons.mp hpr with hh | hh
        · rw [hh]
          exact export_ok_retval _ _ _ heq
        · exact ih _ _ _ heq2 _ hh

/-- C9: `export` returns `None` on every input on which it returns at
all: explicitly when some object lacks a `Path` attribute or the list is
empty, and by falling off the end of the function on the success path;
consequently `process_postables` pairs every part name with `None`. -/
theorem c9_export_returns_none (v : Values) (objs : List PathObj)
    (pbs : List (String × List PathObj)) :
    (∀ r, «export» v objs = Except.ok r → r.retval = none) ∧
    (∀ v' secs, process_postables v pbs = Except.ok (v', secs) →
      ∀ pr ∈ secs, pr.2 = none) :=
  ⟨fun r h => export_ok_retval v objs r h,
   fun v' secs h => process_postables_none pbs v v' secs h⟩

/-- Witness for C9: the conjunction instantiated at a concrete object
list and build list. -/
theorem c9_witness :
    (∀ r, «export» sampleValues [samplePathObj] = Except.ok r → r.retval = none) ∧
    (∀ v' secs,
      process_postables sampleValues [("part", [samplePathObj])] = Except.ok (v', secs) →
      ∀ pr ∈ secs, pr.2 = none) :=
  c9_export_returns_none sampleValues [samplePathObj] [("part", [samplePathObj])]
